import Mathlib

/-!
Verification of the React hooks demo (`src/src/App.jsx`) against its
specification. The JavaScript component code is shallowly embedded as
executable Lean functions: `useState` cells become explicit state fields,
`setState` calls become the values written to those fields, event handlers
become state-transition functions, and `useEffect` bodies become effect
steps run at each render commit, gated exactly as their dependency arrays
dictate. External side effects (document-title writes, console logs) are
emitted as an explicit output trace.
-/

namespace HooksDemo

/-! ### Counter custom hook (`useCounter`, App.jsx lines 28–36)

`useCounter(initialValue = 0)` wraps a `useState(initialValue)` cell and
returns `{ count, increment, decrement, reset }`. Each returned operation
is a closure over the render snapshot `count`; invoking it calls
`setCount` with a value computed from that snapshot. We embed the hook as
a function from the initial value and the render snapshot to the returned
bundle, where each operation field records the value its `setCount` call
writes. -/

/-- The JavaScript default parameter `initialValue = 0` of `useCounter`. -/
def defaultInitialValue : Int := 0

/-- The bundle `{ count, increment, decrement, reset }` returned by
`useCounter`. The `count` field is the read value; each operation field is
the state value that invoking the corresponding closure writes via
`setCount`. -/
structure CounterHook where
  count : Int
  increment : Int
  decrement : Int
  reset : Int
deriving DecidableEq, Repr

/-- `useCounter`: given the construction-time initial value and the current
render snapshot of the state cell, the returned bundle. `increment` writes
`count + 1`, `decrement` writes `count - 1`, `reset` writes
`initialValue`, all computed from the snapshot `count`. -/
def useCounter (initialValue : Int) (count : Int) : CounterHook :=
  { count := count
  , increment := count + 1
  , decrement := count - 1
  , reset := initialValue }

/-- The three operations a consumer can invoke on the hook. -/
inductive CounterOp
  | inc
  | dec
  | reset
deriving DecidableEq, Repr

/-- The state value written when operation `op` is invoked from a render
whose snapshot is `count`. -/
def applyOp (initialValue count : Int) : CounterOp → Int
  | CounterOp.inc => (useCounter initialValue count).increment
  | CounterOp.dec => (useCounter initialValue count).decrement
  | CounterOp.reset => (useCounter initialValue count).reset

/-- Running a sequence of operations where each operation is invoked in its
own event: after each write the component re-renders, so the next
operation's closure is built from the freshly committed state. -/
def runOps (initialValue : Int) (count : Int) : List CounterOp → Int
  | [] => count
  | op :: ops => runOps initialValue (applyOp initialValue count op) ops

/-- Running a sequence of operations all invoked within one event handler:
every closure was built from the same render `snapshot`, so each write is
computed from `snapshot`, not from the current (pending) state. -/
def runOpsSameEvent (initialValue snapshot current : Int) :
    List CounterOp → Int
  | [] => current
  | op :: ops =>
      runOpsSameEvent initialValue snapshot (applyOp initialValue snapshot op) ops

theorem runOps_append (initialValue : Int) (l1 l2 : List CounterOp) :
    ∀ v, runOps initialValue v (l1 ++ l2)
      = runOps initialValue (runOps initialValue v l1) l2 := by
  induction l1 with
  | nil => intro v; rfl
  | cons o l ih => intro v; simp [runOps, ih]

theorem runOpsSameEvent_last (initialValue s : Int) (ops : List CounterOp)
    (o : CounterOp) :
    ∀ cur, runOpsSameEvent initialValue s cur (ops ++ [o])
      = applyOp initialValue s o := by
  induction ops with
  | nil => intro cur; rfl
  | cons o2 l ih => intro cur; simpa [runOpsSameEvent] using ih _

/-- Claim C1: for every initial integer `n` (the JS default being 0),
`increment` writes `value + 1`, `decrement` writes `value - 1`, and after
any sequence of increment/decrement (indeed, any operations) starting from
`n`, a `reset` sets the value to exactly `n`: the initial value is captured
once at hook creation and unaffected by subsequent operations. -/
theorem useCounter_reset_restores_initial (n : Int) (ops : List CounterOp) :
    defaultInitialValue = 0 ∧
    (∀ v : Int, applyOp n v CounterOp.inc = v + 1) ∧
    (∀ v : Int, applyOp n v CounterOp.dec = v - 1) ∧
    runOps n n (ops ++ [CounterOp.reset]) = n := by
  refine ⟨rfl, fun v => rfl, fun v => rfl, ?_⟩
  rw [runOps_append]
  rfl

/-- Claim C3 counterexample: invoking `increment` then `decrement` inside
the same event makes both closures read the same render snapshot (here 0);
the final state is `-1`, not the `0` that sequencing through re-renders
produces, so the second operation does not observe the value produced by
the first. -/
theorem sameEvent_second_op_reads_stale_snapshot :
    runOpsSameEvent 0 0 0 [CounterOp.inc, CounterOp.dec] = -1 ∧
    runOps 0 0 [CounterOp.inc, CounterOp.dec] = 0 ∧
    ¬ (runOpsSameEvent 0 0 0 [CounterOp.inc, CounterOp.dec]
        = runOps 0 0 [CounterOp.inc, CounterOp.dec]) := by
  decide

/-- Claim C3 (amended): each operation's write is visible to operations
invoked in subsequent events (i.e. on the next render), and event
sequences compose; but operations invoked within one and the same event
all read that render's snapshot, so only the last write (computed from the
snapshot) survives — a second operation in the same event does not observe
the first operation's result. -/
theorem counter_new_value_visible_next_render (init v : Int)
    (o1 o2 : CounterOp) (l1 l2 : List CounterOp) :
    runOps init v [o1, o2] = applyOp init (applyOp init v o1) o2 ∧
    runOps init v (l1 ++ l2) = runOps init (runOps init v l1) l2 ∧
    runOpsSameEvent init v v (l1 ++ [o1]) = applyOp init v o1 := by
  exact ⟨rfl, runOps_append init l1 l2 v, runOpsSameEvent_last init v l1 o1 v⟩

/-- Claim C8: from any value `v`, increment then decrement (as separate
events, each with a re-render between) returns the value to exactly `v`,
and likewise decrement then increment. -/
theorem inc_dec_roundtrip (init v : Int) :
    runOps init v [CounterOp.inc, CounterOp.dec] = v ∧
    runOps init v [CounterOp.dec, CounterOp.inc] = v := by
  constructor <;> simp [runOps, applyOp, useCounter]

/-! ### Effect demo panel (`EffectExample`, App.jsx lines 39–72)

The panel owns two state cells, `count` (`useState(0)`) and `time`
(`useState(new Date())`), and declares three effects:
1. lines 44–46: no dependency array — runs after every render, writing
   `Count: ${count}` into `document.title`;
2. lines 49–51: dependency array `[count]` — runs on mount and on every
   render where `count` differs from its previously observed value,
   calling `console.log('Count changed to:', count)`;
3. lines 54–61: dependency array `[]` — runs once on mount, calling
   `setInterval(.., 1000)`; its cleanup, run once at unmount, calls
   `clearInterval` on the registered handle.
Events are the Increment button click (`setCount(count + 1)`) and the
timer firing (`setTime(new Date())`). `Date` values are embedded as `Nat`
timestamps. Every call into the host environment is emitted as a
`HostOutput` value. -/

/-- An output crossing the boundary to the host environment. The last
three constructors are the channels the program never uses; they exist so
that the frame claim (no network / file / persisted-state output) is a
statement about outputs, not vacuously about an impoverished type. -/
inductive HostOutput
  | titleWrite (text : String)
  | consoleLog (text : String) (n : Int)
  | networkRequest
  | fileWrite
  | persistedStateWrite
deriving DecidableEq, Repr

def HostOutput.isTitleWrite : HostOutput → Bool
  | HostOutput.titleWrite _ => true
  | _ => false

def HostOutput.isConsoleLog : HostOutput → Bool
  | HostOutput.consoleLog _ _ => true
  | _ => false

/-- The instrumented state of one `EffectExample` instance. `count` and
`time` are its two state cells; `title` mirrors `document.title`;
`prevCountDep` is the dependency value `[count]` stored by the framework
for effect 2 at the last commit; the remaining fields count observable
events: interval registrations/cancellations, the registered interval
delay, committed renders, title writes and console-log writes. -/
structure EffectComponent where
  count : Int
  time : Nat
  title : String
  prevCountDep : Int
  timerActive : Bool
  intervalRegs : Nat
  intervalCancels : Nat
  intervalDelay : Nat
  renders : Nat
  titleWrites : Nat
  logWrites : Nat
  mounted : Bool
deriving DecidableEq, Repr

/-- Whether effect 2 (dependency array `[count]`) fires at a commit: it
always fires on mount, otherwise exactly when the stored dependency value
differs from the current `count`. -/
def countEffectFires (isMount : Bool) (c : EffectComponent) : Bool :=
  isMount || decide (c.prevCountDep ≠ c.count)

/-- The host outputs emitted by the three effects at one render commit, in
declaration order: the unconditional title write, then (when its gate
fires) the console log. The timer effect performs no host output itself —
`setInterval` registration is tracked in the component state. -/
def effectOutputs (isMount : Bool) (c : EffectComponent) : List HostOutput :=
  HostOutput.titleWrite ("Count: " ++ toString c.count) ::
    (if countEffectFires isMount c
      then [HostOutput.consoleLog "Count changed to:" c.count]
      else [])

/-- Running the three effects at a render commit. Effect 1 writes the
title unconditionally; effect 2 fires per its `[count]` gate and stores
the observed dependency; effect 3 registers the 1000 ms interval only on
mount (`[]` dependency array). -/
def runEffects (isMount : Bool) (c : EffectComponent) : EffectComponent :=
  { c with
      title := "Count: " ++ toString c.count
      titleWrites := c.titleWrites + 1
      logWrites := c.logWrites + (if countEffectFires isMount c then 1 else 0)
      prevCountDep := c.count
      timerActive := c.timerActive || isMount
      intervalRegs := c.intervalRegs + (if isMount then 1 else 0)
      intervalDelay := if isMount then 1000 else c.intervalDelay }

/-- An event delivered to a mounted panel: the Increment button click, or
the interval callback firing with the current timestamp. -/
inductive PanelEvent
  | clickIncrement
  | tick (t : Nat)
deriving DecidableEq, Repr

/-- One event step. A click runs `setCount(count + 1)` and commits a
render (only possible while mounted); a timer fire runs
`setTime(new Date())` and commits a render, but only while the interval is
registered — after `clearInterval` the callback never runs again. Each
commit runs the effects and emits their host outputs. -/
def step (c : EffectComponent) : PanelEvent → EffectComponent × List HostOutput
  | PanelEvent.clickIncrement =>
      if c.mounted then
        (runEffects false { c with count := c.count + 1, renders := c.renders + 1 },
         effectOutputs false { c with count := c.count + 1, renders := c.renders + 1 })
      else (c, [])
  | PanelEvent.tick t =>
      if c.timerActive then
        (runEffects false { c with time := t, renders := c.renders + 1 },
         effectOutputs false { c with time := t, renders := c.renders + 1 })
      else (c, [])

/-- The component state just before the first render commits: `count` is
0, `time` is the construction-time timestamp, nothing has run yet. -/
def initialPanel (t0 : Nat) : EffectComponent :=
  { count := 0
  , time := t0
  , title := ""
  , prevCountDep := 0
  , timerActive := false
  , intervalRegs := 0
  , intervalCancels := 0
  , intervalDelay := 0
  , renders := 1
  , titleWrites := 0
  , logWrites := 0
  , mounted := true }

/-- Mounting the panel: the first render commits and all three effects run
in mount mode. -/
def mount (t0 : Nat) : EffectComponent × List HostOutput :=
  (runEffects true (initialPanel t0), effectOutputs true (initialPanel t0))

/-- Unmounting the panel: the framework runs the stored cleanups exactly
once; the only cleanup is effect 3's `clearInterval(timer)`. -/
def unmount (c : EffectComponent) : EffectComponent :=
  { c with
      timerActive := false
      intervalCancels := c.intervalCancels + 1
      mounted := false }

/-- Delivering a list of events to a mounted panel, collecting the host
outputs in order. -/
def runPanel (c : EffectComponent) : List PanelEvent → EffectComponent × List HostOutput
  | [] => (c, [])
  | e :: es =>
      ((runPanel (step c e).1 es).1, (step c e).2 ++ (runPanel (step c e).1 es).2)

/-- The panel state after mounting at `t0` and handling `es`. -/
def panelAfter (t0 : Nat) (es : List PanelEvent) : EffectComponent :=
  (runPanel (mount t0).1 es).1

/-- All host outputs of a mounted panel's lifetime segment. -/
def panelOutputs (t0 : Nat) (es : List PanelEvent) : List HostOutput :=
  (mount t0).2 ++ (runPanel (mount t0).1 es).2

/-- The number of Increment-button clicks in an event list. -/
def countClicks : List PanelEvent → Nat
  | [] => 0
  | PanelEvent.clickIncrement :: es => countClicks es + 1
  | PanelEvent.tick _ :: es => countClicks es

/-- The invariant of a mounted panel: the timer was registered exactly
once with delay 1000 and never cancelled, the stored `[count]` dependency
matches the committed count, the title effect has run once per committed
render, and the title holds the latest render's count. -/
def PanelGood (c : EffectComponent) : Prop :=
  c.mounted = true ∧ c.timerActive = true ∧ c.intervalRegs = 1 ∧
  c.intervalCancels = 0 ∧ c.intervalDelay = 1000 ∧
  c.prevCountDep = c.count ∧ c.titleWrites = c.renders ∧
  c.title = "Count: " ++ toString c.count

@[simp] theorem runEffects_count (b : Bool) (c : EffectComponent) :
    (runEffects b c).count = c.count := rfl

@[simp] theorem runEffects_time (b : Bool) (c : EffectComponent) :
    (runEffects b c).time = c.time := rfl

@[simp] theorem runEffects_title (b : Bool) (c : EffectComponent) :
    (runEffects b c).title = "Count: " ++ toString c.count := rfl

@[simp] theorem runEffects_prevCountDep (b : Bool) (c : EffectComponent) :
    (runEffects b c).prevCountDep = c.count := rfl

@[simp] theorem runEffects_timerActive (b : Bool) (c : EffectComponent) :
    (runEffects b c).timerActive = (c.timerActive || b) := rfl

@[simp] theorem runEffects_intervalRegs (b : Bool) (c : EffectComponent) :
    (runEffects b c).intervalRegs = c.intervalRegs + (if b then 1 else 0) := rfl

@[simp] theorem runEffects_intervalCancels (b : Bool) (c : EffectComponent) :
    (runEffects b c).intervalCancels = c.intervalCancels := rfl

@[simp] theorem runEffects_intervalDelay (b : Bool) (c : EffectComponent) :
    (runEffects b c).intervalDelay = if b then 1000 else c.intervalDelay := rfl

@[simp] theorem runEffects_renders (b : Bool) (c : EffectComponent) :
    (runEffects b c).renders = c.renders := rfl

@[simp] theorem runEffects_titleWrites (b : Bool) (c : EffectComponent) :
    (runEffects b c).titleWrites = c.titleWrites + 1 := rfl

@[simp] theorem runEffects_logWrites (b : Bool) (c : EffectComponent) :
    (runEffects b c).logWrites
      = c.logWrites + (if countEffectFires b c then 1 else 0) := rfl

@[simp] theorem runEffects_mounted (b : Bool) (c : EffectComponent) :
    (runEffects b c).mounted = c.mounted := rfl

theorem panelGood_mount (t0 : Nat) :
    PanelGood (mount t0).1 ∧ (mount t0).1.logWrites = 1 ∧
    (mount t0).1.renders = 1 ∧ (mount t0).1.count = 0 ∧
    (mount t0).1.time = t0 := by
  refine ⟨⟨rfl, rfl, rfl, rfl, rfl, rfl, rfl, rfl⟩, ?_, rfl, rfl, rfl⟩
  simp [mount, countEffectFires, initialPanel]

/-- The number of `logWrites` one event contributes (its click count). -/
def clickDelta : PanelEvent → Nat
  | PanelEvent.clickIncrement => 1
  | PanelEvent.tick _ => 0

theorem countClicks_cons (e : PanelEvent) (es : List PanelEvent) :
    countClicks (e :: es) = clickDelta e + countClicks es := by
  cases e with
  | clickIncrement => simp [countClicks, clickDelta]; omega
  | tick t => simp [countClicks, clickDelta]

theorem panelGood_step (c : EffectComponent) (e : PanelEvent) (h : PanelGood c) :
    PanelGood (step c e).1 ∧
    (step c e).1.logWrites = c.logWrites + clickDelta e ∧
    (step c e).1.renders = c.renders + 1 := by
  obtain ⟨hm, hta, hr, hc, hd, hp, htw, hti⟩ := h
  cases e with
  | clickIncrement =>
      refine ⟨⟨?_, ?_, ?_, ?_, ?_, ?_, ?_, ?_⟩, ?_, ?_⟩ <;>
        simp [step, countEffectFires, hm, hta, hr, hc, hd, hp, htw, clickDelta]
  | tick t =>
      refine ⟨⟨?_, ?_, ?_, ?_, ?_, ?_, ?_, ?_⟩, ?_, ?_⟩ <;>
        simp [step, countEffectFires, hta, hm, hr, hc, hd, hp, htw, clickDelta]

theorem panelGood_run (es : List PanelEvent) : ∀ c, PanelGood c →
    PanelGood (runPanel c es).1 ∧
    (runPanel c es).1.logWrites = c.logWrites + countClicks es ∧
    (runPanel c es).1.renders = c.renders + es.length := by
  induction es with
  | nil => intro c h; simpa [runPanel, countClicks] using h
  | cons e es ih =>
      intro c h
      obtain ⟨h1, h2, h3⟩ := panelGood_step c e h
      obtain ⟨g1, g2, g3⟩ := ih _ h1
      refine ⟨by simpa [runPanel] using g1, ?_, ?_⟩
      · show (runPanel (step c e).1 es).1.logWrites = _
        rw [g2, h2, countClicks_cons]
        omega
      · show (runPanel (step c e).1 es).1.renders = _
        rw [g3, h3]
        simp [List.length_cons]
        omega

theorem panelGood_panelAfter (t0 : Nat) (es : List PanelEvent) :
    PanelGood (panelAfter t0 es) ∧
    (panelAfter t0 es).logWrites = 1 + countClicks es ∧
    (panelAfter t0 es).renders = 1 + es.length := by
  obtain ⟨hg, hl, hr, _, _⟩ := panelGood_mount t0
  obtain ⟨g1, g2, g3⟩ := panelGood_run es _ hg
  exact ⟨g1, by rw [panelAfter, g2, hl], by rw [panelAfter, g3, hr]⟩

/-- Claim C2: after mounting and any sequence of timer fires and clicks,
the interval was registered exactly once (on the first render, with delay
1000) and never cancelled, so exactly one timer is active; each timer fire
overwrites `time` and commits one more render without re-registering; and
unmounting cancels the handle exactly once, after which no event — in
particular no timer fire — changes the component again. -/
theorem single_timer_lifecycle (t0 : Nat) (es : List PanelEvent) :
    (panelAfter t0 es).intervalRegs = 1 ∧
    (panelAfter t0 es).timerActive = true ∧
    (panelAfter t0 es).intervalCancels = 0 ∧
    (panelAfter t0 es).intervalDelay = 1000 ∧
    (∀ t, (step (panelAfter t0 es) (PanelEvent.tick t)).1.time = t ∧
          (step (panelAfter t0 es) (PanelEvent.tick t)).1.renders
            = (panelAfter t0 es).renders + 1 ∧
          (step (panelAfter t0 es) (PanelEvent.tick t)).1.intervalRegs = 1) ∧
    (unmount (panelAfter t0 es)).intervalCancels = 1 ∧
    (unmount (panelAfter t0 es)).timerActive = false ∧
    (∀ e, step (unmount (panelAfter t0 es)) e
      = (unmount (panelAfter t0 es), [])) := by
  obtain ⟨⟨hm, hta, hr, hc, hd, hp, htw, hti⟩, _, _⟩ := panelGood_panelAfter t0 es
  refine ⟨hr, hta, hc, hd, ?_, ?_, rfl, ?_⟩
  · intro t
    refine ⟨?_, ?_, ?_⟩ <;> simp [step, hta, hr]
  · simp [unmount, hc]
  · intro e
    cases e <;> simp [step, unmount]

/-- Claim C4: the ungated title effect has fired exactly once per
committed render — after mount plus `N` further events there have been
`1 + N` renders and exactly that many title writes — and the title holds
the latest render's counter value. -/
theorem title_effect_fires_every_render (t0 : Nat) (es : List PanelEvent) :
    (panelAfter t0 es).titleWrites = (panelAfter t0 es).renders ∧
    (panelAfter t0 es).renders = 1 + es.length ∧
    (panelAfter t0 es).title
      = "Count: " ++ toString (panelAfter t0 es).count := by
  obtain ⟨⟨hm, hta, hr, hc, hd, hp, htw, hti⟩, hl, hren⟩ :=
    panelGood_panelAfter t0 es
  exact ⟨htw, hren, hti⟩

/-- Claim C5: the `[count]`-gated log effect has fired once on mount plus
once per click (the only events that change `count`); a timer-tick render
leaves `count` unchanged and does not fire it, while a click render
changes `count` and fires it exactly once. The effect itself touches no
state cell: it only emits a console log. -/
theorem count_gated_log_effect_fires_on_change (t0 : Nat) (es : List PanelEvent) :
    (panelAfter t0 es).logWrites = 1 + countClicks es ∧
    (∀ t, (step (panelAfter t0 es) (PanelEvent.tick t)).1.count
            = (panelAfter t0 es).count ∧
          (step (panelAfter t0 es) (PanelEvent.tick t)).1.logWrites
            = (panelAfter t0 es).logWrites) ∧
    (step (panelAfter t0 es) PanelEvent.clickIncrement).1.count
      = (panelAfter t0 es).count + 1 ∧
    (step (panelAfter t0 es) PanelEvent.clickIncrement).1.logWrites
      = (panelAfter t0 es).logWrites + 1 := by
  obtain ⟨⟨hm, hta, hr, hc, hd, hp, htw, hti⟩, hl, hren⟩ :=
    panelGood_panelAfter t0 es
  refine ⟨hl, ?_, ?_, ?_⟩
  · intro t
    constructor <;> simp [step, hta, countEffectFires, hp]
  · simp [step, hm]
  · simp [step, hm, countEffectFires, hp]

theorem effectOutputs_classified (b : Bool) (c : EffectComponent) :
    (effectOutputs b c).all
      (fun o => o.isTitleWrite || o.isConsoleLog) = true := by
  cases h : countEffectFires b c <;>
    simp [effectOutputs, h, HostOutput.isTitleWrite, HostOutput.isConsoleLog]

theorem step_outputs_classified (c : EffectComponent) (e : PanelEvent) :
    ((step c e).2).all (fun o => o.isTitleWrite || o.isConsoleLog) = true := by
  cases e with
  | clickIncrement =>
      cases h : c.mounted <;> simp [step, h, effectOutputs_classified]
  | tick t =>
      cases h : c.timerActive <;> simp [step, h, effectOutputs_classified]

theorem runPanel_outputs_classified (es : List PanelEvent) : ∀ c,
    ((runPanel c es).2).all
      (fun o => o.isTitleWrite || o.isConsoleLog) = true := by
  induction es with
  | nil => intro c; rfl
  | cons e es ih =>
      intro c
      simp [runPanel, List.all_append, ih, step_outputs_classified]

theorem panelOutputs_classified (t0 : Nat) (es : List PanelEvent) :
    (panelOutputs t0 es).all
      (fun o => o.isTitleWrite || o.isConsoleLog) = true := by
  simp [panelOutputs, List.all_append, mount, effectOutputs_classified,
    runPanel_outputs_classified]

theorem classified_output_not_io_channel (o : HostOutput)
    (h : (o.isTitleWrite || o.isConsoleLog) = true) :
    (o != HostOutput.networkRequest && o != HostOutput.fileWrite
      && o != HostOutput.persistedStateWrite) = true := by
  cases o <;> simp_all [HostOutput.isTitleWrite, HostOutput.isConsoleLog]

/-- Claim C9 counterexample: already the mount commit emits a console-log
output alongside the title write, so the title write is not the program's
only external output. -/
theorem console_log_output_on_mount :
    (mount 0).2 = [HostOutput.titleWrite "Count: 0",
      HostOutput.consoleLog "Count changed to:" 0] ∧
    ¬ ((mount 0).2.all (fun o => o.isTitleWrite) = true) := by
  constructor
  · rfl
  · decide

/-- Claim C9 (amended): every external output emitted over any lifetime of
the effect panel is either a document-title write or a console-log
message; in particular the program performs no network, file, or
persisted-state output, and the title write is its only write into the
host page itself. -/
theorem host_outputs_only_title_and_console (t0 : Nat) (es : List PanelEvent) :
    (panelOutputs t0 es).all
      (fun o => o.isTitleWrite || o.isConsoleLog) = true ∧
    (panelOutputs t0 es).all
      (fun o => o != HostOutput.networkRequest && o != HostOutput.fileWrite
        && o != HostOutput.persistedStateWrite) = true := by
  have h1 := panelOutputs_classified t0 es
  refine ⟨h1, ?_⟩
  rw [List.all_eq_true] at h1 ⊢
  intro o ho
  exact classified_output_not_io_channel o (h1 o ho)

/-! ### Theme scope (App.jsx lines 5–25, 90–120)

`ThemeContext = createContext()` is created with no argument, so its
default value is JavaScript `undefined`; we embed the context value as an
`Option ThemeValue`, with `none` for `undefined`. `ThemeProvider` owns
`useState(false)` for `isDark` and supplies `some { isDark }` (together
with `toggleTheme`) to its subtree; `toggleTheme` calls
`setIsDark(!isDark)` with the render snapshot. `useTheme()` simply
returns `useContext(ThemeContext)`. A consumer such as `ThemeExample` or
`AppContent` destructures the returned value, which throws a TypeError at
the point of read when the value is `undefined`; we embed that
destructuring as an `Except` returning an undefined-value error. -/

/-- The value `{ isDark, toggleTheme }` supplied by the provider; the
`toggleTheme` member is an action, so the data content is the flag. -/
structure ThemeValue where
  isDark : Bool
deriving DecidableEq, Repr

/-- `createContext()` is called with no default argument: the context
value seen outside any provider subtree is `undefined`. -/
def themeContextDefault : Option ThemeValue := none

/-- `useState(false)` in `ThemeProvider`: the flag starts light. -/
def initialIsDark : Bool := false

/-- `toggleTheme`: `setIsDark(!isDark)`, where `isDark` is the provider's
render snapshot of the flag. -/
def toggleTheme (isDark : Bool) : Bool := !isDark

/-- The context value visible inside the provider's subtree when the
provider's flag is `isDark`. -/
def themeProviderValue (isDark : Bool) : Option ThemeValue :=
  some { isDark := isDark }

/-- `useTheme()`: returns `useContext(ThemeContext)` unchanged — no check,
no fallback. -/
def useTheme (ctx : Option ThemeValue) : Option ThemeValue := ctx

/-- The failure raised when a consumer destructures the context value. -/
inductive ThemeReadError
  | undefinedContextValue
deriving DecidableEq, Repr

/-- `const { isDark, toggleTheme } = useTheme()`: destructuring
`undefined` fails immediately with an undefined-value error; destructuring
a provided value yields the usable handle. -/
def destructureTheme : Option ThemeValue → Except ThemeReadError ThemeValue
  | none => Except.error ThemeReadError.undefinedContextValue
  | some v => Except.ok v

/-- The theme panel's displayed label
(`{isDark ? 'Dark' : 'Light'}`, App.jsx line 96). -/
def themeLabel (isDark : Bool) : String :=
  if isDark then "Dark" else "Light"

/-- The app root's class (`app ${isDark ? 'dark' : 'light'}`,
App.jsx line 107). -/
def appClassName (isDark : Bool) : String :=
  "app " ++ (if isDark then "dark" else "light")

/-- Claim C6: reading the theme scope outside the provider's subtree sees
the context default `undefined` and the consumer's destructuring read
fails immediately with an undefined-value error, never yielding a usable
theme handle; inside any provider subtree the same read succeeds, so the
failure is exactly the structural programmer error of a missing
provider. -/
theorem useTheme_outside_provider_fails_fast :
    useTheme themeContextDefault = none ∧
    destructureTheme (useTheme themeContextDefault)
      = Except.error ThemeReadError.undefinedContextValue ∧
    (∀ b, destructureTheme (useTheme (themeProviderValue b))
      = Except.ok { isDark := b }) := by
  exact ⟨rfl, rfl, fun b => rfl⟩

/-- Claim C7: `toggleTheme` flips the flag, so two successive toggles
restore it; and a descendant reading the scope on the render after a
toggle observes the flipped value — its displayed label and the root's
class both change accordingly. -/
theorem toggleTheme_flips_and_double_toggle_restores (b : Bool) :
    toggleTheme b = !b ∧
    toggleTheme (toggleTheme b) = b ∧
    destructureTheme (useTheme (themeProviderValue (toggleTheme b)))
      = Except.ok { isDark := !b } ∧
    themeLabel (toggleTheme b) ≠ themeLabel b ∧
    appClassName (toggleTheme b) ≠ appClassName b := by
  refine ⟨rfl, Bool.not_not b, rfl, ?_, ?_⟩ <;>
    cases b <;> simp [toggleTheme, themeLabel, appClassName]

/-- Claim C10: the provider initializes the flag to `false` (light), so
before any toggle every descendant observes the light theme: the app root
renders with the `app light` class and the theme panel displays the
`Light` label. -/
theorem initial_theme_is_light :
    initialIsDark = false ∧
    useTheme (themeProviderValue initialIsDark)
      = some { isDark := false } ∧
    appClassName initialIsDark = "app light" ∧
    themeLabel initialIsDark = "Light" := by
  exact ⟨rfl, rfl, rfl, rfl⟩

end HooksDemo
